import Mathlib

/-!
Shallow embedding of the wallet adapter implemented in
`src/app/lib/services/web3/web3.service.ts` (class `Web3Service`).

The adapter keeps five observable state fields (BehaviorSubjects in the
source): `address`, `chainId`, `networkName`, `isSupportedNetwork`,
`isMetaMaskInstalled`.  The injected provider (`window.ethereum`) is modelled
as explicit oracle data: the construction-time probe carries the
synchronously readable `chainId` and `selectedAddress` fields, and each
asynchronous action carries the responses the provider would give to the
requests that action can issue.  JavaScript truthiness on strings (the empty
string is falsy) and on numbers (0 is falsy) is translated explicitly at
every spot the source relies on it (`chainId || null`, `addr ? ... : null`,
`err.code || (err.data && err.data.code)`, `CHAIN_NAME_MAP[cid] || ...`,
`find(...) || SUPPORTED_CHAIN_IDS[0]`).  Each action returns the resulting
state together with the list of provider requests it issued and its outcome
(normal return or raised error), so that error propagation and
request-emission claims can be stated directly.
-/

namespace Web3Service

/-- The five observable state fields of the service (the BehaviorSubjects
`address$`, `chainId$`, `networkName$`, `isSupportedNetwork$`,
`isMetaMaskInstalled$`). -/
structure WalletState where
  address : Option String
  chainId : Option String
  networkName : Option String
  isSupportedNetwork : Bool
  isMetaMaskInstalled : Bool
deriving DecidableEq, Repr

/-- The initial values the five BehaviorSubjects are constructed with:
`null`, `null`, `null`, `true`, `false`. -/
def initialState : WalletState :=
  { address := none, chainId := none, networkName := none,
    isSupportedNetwork := true, isMetaMaskInstalled := false }

/-- `SUPPORTED_CHAIN_IDS = ['0x1', '0x5', '0xaa36a7', '0x89']` (mainnet,
goerli, sepolia, polygon). -/
def SUPPORTED_CHAIN_IDS : List String := ["0x1", "0x5", "0xaa36a7", "0x89"]

/-- `CHAIN_NAME_MAP`: property lookup on the record literal of the source. -/
def CHAIN_NAME_MAP (cid : String) : Option String :=
  if cid = "0x1" then some "Ethereum Mainnet"
  else if cid = "0x3" then some "Ropsten"
  else if cid = "0x4" then some "Rinkeby"
  else if cid = "0x5" then some "Goerli"
  else if cid = "0xaa36a7" then some "Sepolia"
  else if cid = "0x89" then some "Polygon"
  else none

/-- The `nativeCurrency` sub-object of a `CHAIN_PARAMS` entry. -/
structure NativeCurrency where
  name : String
  symbol : String
  decimals : Nat
deriving DecidableEq, Repr

/-- One entry of `CHAIN_PARAMS`: the parameter bundle passed to
`wallet_addEthereumChain`. -/
structure ChainParams where
  chainId : String
  chainName : String
  nativeCurrency : NativeCurrency
  rpcUrls : List String
  blockExplorerUrls : List String
deriving DecidableEq, Repr

/-- The `CHAIN_PARAMS['0x1']` entry. -/
def mainnetParams : ChainParams :=
  { chainId := "0x1", chainName := "Ethereum Mainnet",
    nativeCurrency := { name := "Ether", symbol := "ETH", decimals := 18 },
    rpcUrls := ["https://mainnet.infura.io/v3/"],
    blockExplorerUrls := ["https://etherscan.io"] }

/-- The `CHAIN_PARAMS['0x5']` entry. -/
def goerliParams : ChainParams :=
  { chainId := "0x5", chainName := "Goerli",
    nativeCurrency := { name := "Goerli Ether", symbol := "GOR", decimals := 18 },
    rpcUrls := ["https://rpc.ankr.com/eth_goerli"],
    blockExplorerUrls := ["https://goerli.etherscan.io"] }

/-- The `CHAIN_PARAMS['0xaa36a7']` entry. -/
def sepoliaParams : ChainParams :=
  { chainId := "0xaa36a7", chainName := "Sepolia",
    nativeCurrency := { name := "Sepolia Ether", symbol := "SEP", decimals := 18 },
    rpcUrls := ["https://rpc.sepolia.org"],
    blockExplorerUrls := ["https://sepolia.etherscan.io"] }

/-- The `CHAIN_PARAMS['0x89']` entry. -/
def polygonParams : ChainParams :=
  { chainId := "0x89", chainName := "Polygon",
    nativeCurrency := { name := "MATIC", symbol := "MATIC", decimals := 18 },
    rpcUrls := ["https://polygon-rpc.com/"],
    blockExplorerUrls := ["https://polygonscan.com/"] }

/-- `CHAIN_PARAMS`: property lookup on the record literal of the source. -/
def CHAIN_PARAMS (cid : String) : Option ChainParams :=
  if cid = "0x1" then some mainnetParams
  else if cid = "0x5" then some goerliParams
  else if cid = "0xaa36a7" then some sepoliaParams
  else if cid = "0x89" then some polygonParams
  else none

/-- The optional `data` sub-object of a provider error, which may itself
carry a numeric `code`. -/
structure ErrData where
  code : Option Int
deriving DecidableEq, Repr

/-- A JavaScript error value as the service inspects it: an optional
top-level numeric `code`, an optional `data` object with its own optional
`code`, and a message.  `throw new Error(msg)` is an error with no codes. -/
structure JsError where
  code : Option Int
  data : Option ErrData
  message : String
deriving DecidableEq, Repr

/-- The `throw new Error('MetaMask not installed')` value. -/
def providerMissingError : JsError :=
  { code := none, data := none, message := "MetaMask not installed" }

/-- `err && (err.code || (err.data && err.data.code))`: the top-level code
when it is truthy (a nonzero number), otherwise the code nested under
`data` when that object is present. -/
def effectiveCode (e : JsError) : Option Int :=
  match e.code with
  | some c => if c = 0 then (match e.data with | some d => d.code | none => none) else some c
  | none => match e.data with | some d => d.code | none => none

/-- `code === 4902` on the extracted effective code. -/
def is4902 (e : JsError) : Bool := effectiveCode e == some 4902

/-- A request issued to the injected provider via `ethereum.request` (or a
no-argument observation of which call was made). -/
inductive Request where
  | requestAccounts
  | requestChainId
  | switchChain (chainId : String)
  | addChain (params : ChainParams)
deriving DecidableEq, Repr

/-- `_normalizeAddress`: the source's identity placeholder. -/
def normalizeAddress (address : String) : String := address

/-- `_handleAccountsChanged(accounts)`:
`const addr = accounts && accounts.length > 0 ? accounts[0] : null;`
`this.address$.next(addr ? this._normalizeAddress(addr) : null);`
The second line's truthiness check maps an empty-string first entry to
`null`. -/
def handleAccountsChanged (accounts : Option (List String)) (s : WalletState) : WalletState :=
  let addr : Option String :=
    match accounts with
    | some (a :: _) => some a
    | some [] => none
    | none => none
  match addr with
  | some a => if a = "" then { s with address := none }
              else { s with address := some (normalizeAddress a) }
  | none => { s with address := none }

/-- `_handleChainChanged(chainId)`:
`const cid = chainId || null;` (empty string is falsy, hence mapped to null);
`supported = cid ? SUPPORTED_CHAIN_IDS.includes(cid) : false;`
`name = cid ? CHAIN_NAME_MAP[cid] || Chain-cid-string : null;`
(the inner fallback also fires on a mapped empty-string value, which the
concrete map never contains). -/
def handleChainChanged (chainId : Option String) (s : WalletState) : WalletState :=
  let cid : Option String :=
    match chainId with
    | some x => if x = "" then none else some x
    | none => none
  let supported : Bool :=
    match cid with
    | some x => SUPPORTED_CHAIN_IDS.contains x
    | none => false
  let name : Option String :=
    match cid with
    | some x =>
        some (match CHAIN_NAME_MAP x with
              | some n => if n = "" then "Chain " ++ x else n
              | none => "Chain " ++ x)
    | none => none
  { s with chainId := cid, isSupportedNetwork := supported, networkName := name }

/-- The synchronously readable fields of the injected provider at
construction time: `window.ethereum.chainId` and
`window.ethereum.selectedAddress`, each possibly absent. -/
structure InitProvider where
  chainId : Option String
  selectedAddress : Option String
deriving DecidableEq, Repr

/-- `_init()`: the construction-time probe.  `none` for the whole provider
means `window.ethereum` is absent.  The two event subscriptions the source
attaches here are modelled as the event operations of `Op` below. -/
def initProbe (ethereum : Option InitProvider) (s : WalletState) : WalletState :=
  match ethereum with
  | none => { s with isMetaMaskInstalled := false }
  | some p =>
    let s1 := { s with isMetaMaskInstalled := true }
    let s2 :=
      match p.chainId with
      | some cid => if cid = "" then s1 else handleChainChanged (some cid) s1
      | none => s1
    let addr : Option String :=
      match p.selectedAddress with
      | some a => if a = "" then none else some a
      | none => none
    match addr with
    | some a => { s2 with address := some (normalizeAddress a) }
    | none => s2

/-- The provider responses one execution of `connect()` can consume: the
result of `eth_requestAccounts` and the result of `eth_chainId`. -/
structure ConnectOracle where
  accountsResult : Except JsError (List String)
  chainIdResult : Except JsError (Option String)

/-- `connect()`.  Returns the state after the call, the provider requests
issued, and the outcome: `Except.ok` with the returned address, or
`Except.error` with the raised error (the source's catch block logs and
rethrows the same error). -/
def connect (ethereum : Option ConnectOracle) (s : WalletState) :
    WalletState × List Request × Except JsError (Option String) :=
  match ethereum with
  | none => ({ s with isMetaMaskInstalled := false }, [], Except.error providerMissingError)
  | some o =>
    match o.accountsResult with
    | Except.error e => (s, [Request.requestAccounts], Except.error e)
    | Except.ok accounts =>
      let s1 := handleAccountsChanged (some accounts) s
      match o.chainIdResult with
      | Except.error e => (s1, [Request.requestAccounts, Request.requestChainId], Except.error e)
      | Except.ok cid =>
        let s2 := handleChainChanged cid s1
        (s2, [Request.requestAccounts, Request.requestChainId], Except.ok s2.address)

/-- `SUPPORTED_CHAIN_IDS.find((id) => id !== current) || SUPPORTED_CHAIN_IDS[0]`:
the target selection of `switchToSupportedNetwork`, truthiness of the found
string included. -/
def chooseTarget (current : Option String) : String :=
  match SUPPORTED_CHAIN_IDS.find? (fun id => some id != current) with
  | some id => if id = "" then SUPPORTED_CHAIN_IDS.headD "" else id
  | none => SUPPORTED_CHAIN_IDS.headD ""

/-- The provider responses one execution of `switchToSupportedNetwork()` can
consume: the result of `wallet_switchEthereumChain` and (if reached) of
`wallet_addEthereumChain`. -/
structure SwitchOracle where
  switchResult : Except JsError Unit
  addResult : Except JsError Unit

/-- `switchToSupportedNetwork()`.  Returns the state after the call (the
source never writes any subject here), the requests issued, and the
outcome. -/
def switchToSupportedNetwork (ethereum : Option SwitchOracle) (s : WalletState) :
    WalletState × List Request × Except JsError Unit :=
  match ethereum with
  | none => (s, [], Except.error providerMissingError)
  | some o =>
    let target := chooseTarget s.chainId
    match o.switchResult with
    | Except.ok _ => (s, [Request.switchChain target], Except.ok ())
    | Except.error err =>
      if is4902 err then
        match CHAIN_PARAMS target with
        | some params =>
          match o.addResult with
          | Except.ok _ =>
              (s, [Request.switchChain target, Request.addChain params], Except.ok ())
          | Except.error e2 =>
              (s, [Request.switchChain target, Request.addChain params], Except.error e2)
        | none => (s, [Request.switchChain target], Except.error err)
      else (s, [Request.switchChain target], Except.error err)

/-- `disconnect()`: `this.address$.next(null)`.  The second component is the
list of provider requests issued, which is empty: the body performs no
`ethereum.request` call. -/
def disconnect (s : WalletState) : WalletState × List Request :=
  ({ s with address := none }, [])

/-- One interaction with the service after construction: a user action (with
the provider environment that execution sees) or a provider event delivered
to one of the subscribed handlers. -/
inductive Op where
  | connect (ethereum : Option ConnectOracle)
  | disconnect
  | switchNetwork (ethereum : Option SwitchOracle)
  | accountsChanged (accounts : Option (List String))
  | chainChanged (chainId : Option String)

/-- The state transition of one interaction (outputs discarded). -/
def applyOp (s : WalletState) : Op → WalletState
  | Op.connect o => (connect o s).1
  | Op.disconnect => (disconnect s).1
  | Op.switchNetwork o => (switchToSupportedNetwork o s).1
  | Op.accountsChanged a => handleAccountsChanged a s
  | Op.chainChanged c => handleChainChanged c s

/-- The state after construction (constructor runs `_init`) followed by a
sequence of interactions. -/
def run (ethereum : Option InitProvider) (ops : List Op) : WalletState :=
  ops.foldl applyOp (initProbe ethereum initialState)

/-- The pure function of `chainId` and the registry named by the spec:
membership of the current chain in `SUPPORTED_CHAIN_IDS`, false for a null
chain. -/
def supportedOf : Option String → Bool
  | some c => SUPPORTED_CHAIN_IDS.contains c
  | none => false

/-- The address field is not the empty string (it is null or non-empty). -/
def addrNonempty (s : WalletState) : Bool := s.address != some ""

/-- The chain-update routine as the spec describes it, written from the
spec's words for comparison with the source translation
`handleChainChanged`: chainId stored as given (null for a null input),
`isSupportedNetwork` by membership, `networkName` by registry lookup with
the synthesized fallback. -/
def specChainUpdate (c : Option String) (s : WalletState) : WalletState :=
  match c with
  | none => { s with chainId := none, isSupportedNetwork := false, networkName := none }
  | some x =>
    { s with chainId := some x,
             isSupportedNetwork := SUPPORTED_CHAIN_IDS.contains x,
             networkName := some (match CHAIN_NAME_MAP x with
                                  | some n => n
                                  | none => "Chain " ++ x) }

/-- The target-selection policy as the spec states it, written from the
spec's words for comparison with the source translation `chooseTarget`:
first registry entry differing from the current chain, else the first
registry entry. -/
def specTarget (current : Option String) : String :=
  match SUPPORTED_CHAIN_IDS.find? (fun id => some id != current) with
  | some id => id
  | none => SUPPORTED_CHAIN_IDS.headD ""

/-- Whether an interaction's `connect` environment agrees with a given
provider presence (non-connect interactions carry no presence and always
agree). -/
def connectPresenceOk (present : Bool) : Op → Bool
  | Op.connect o => o.isSome == present
  | _ => true

/-- The supported-network flag agrees with the pure function of the chain,
or no chain update has happened yet and the flag still holds its initial
value `true` over a null chain. -/
def chainConsistent (s : WalletState) : Bool :=
  (s.isSupportedNetwork == supportedOf s.chainId) || ((s.chainId == none) && s.isSupportedNetwork)

/-! ## Helper lemmas -/

theorem chainNameMap_ne_empty (x n : String) (h : CHAIN_NAME_MAP x = some n) : n ≠ "" := by
  unfold CHAIN_NAME_MAP at h
  repeat' split at h
  all_goals first
    | exact Option.noConfusion h
    | (injection h with h; subst h; decide)

theorem chooseTarget_eq_spec (current : Option String) :
    chooseTarget current = specTarget current := by
  cases current with
  | none => decide
  | some c =>
    by_cases h : c = "0x1"
    · subst h; decide
    · have hp : ((some "0x1" : Option String) != some c) = true := by
        simp [bne_iff_ne]
        exact fun hh => h hh.symm
      unfold chooseTarget specTarget SUPPORTED_CHAIN_IDS
      rw [List.find?]
      simp [hp]

theorem switch_state_eq (o : Option SwitchOracle) (s : WalletState) :
    (switchToSupportedNetwork o s).1 = s := by
  unfold switchToSupportedNetwork
  repeat' split
  all_goals try rfl
  all_goals cases hcp : CHAIN_PARAMS (chooseTarget s.chainId) <;> simp [hcp]

theorem hac_struct (a : Option (List String)) (s : WalletState) :
    handleAccountsChanged a s = { s with address := (handleAccountsChanged a s).address } := by
  cases a with
  | none => rfl
  | some l =>
    cases l with
    | nil => rfl
    | cons x xs => by_cases h : x = "" <;> simp [handleAccountsChanged, h]

theorem hac_chainId (a : Option (List String)) (s : WalletState) :
    (handleAccountsChanged a s).chainId = s.chainId := by
  rw [hac_struct]

theorem hac_supported (a : Option (List String)) (s : WalletState) :
    (handleAccountsChanged a s).isSupportedNetwork = s.isSupportedNetwork := by
  rw [hac_struct]

theorem hac_networkName (a : Option (List String)) (s : WalletState) :
    (handleAccountsChanged a s).networkName = s.networkName := by
  rw [hac_struct]

theorem hac_installed (a : Option (List String)) (s : WalletState) :
    (handleAccountsChanged a s).isMetaMaskInstalled = s.isMetaMaskInstalled := by
  rw [hac_struct]

theorem hcc_address_eq (c : Option String) (s : WalletState) :
    (handleChainChanged c s).address = s.address := by
  unfold handleChainChanged; rfl

theorem hcc_installed (c : Option String) (s : WalletState) :
    (handleChainChanged c s).isMetaMaskInstalled = s.isMetaMaskInstalled := by
  unfold handleChainChanged; rfl

theorem hac_addrNonempty (a : Option (List String)) (s : WalletState) :
    addrNonempty (handleAccountsChanged a s) = true := by
  cases a with
  | none => rfl
  | some l =>
    cases l with
    | nil => rfl
    | cons x xs =>
      by_cases h : x = ""
      · simp [handleAccountsChanged, addrNonempty, h]
      · simp [handleAccountsChanged, addrNonempty, h, normalizeAddress, bne_iff_ne]

theorem hcc_addrNonempty (c : Option String) (s : WalletState)
    (h : addrNonempty s = true) : addrNonempty (handleChainChanged c s) = true := by
  unfold addrNonempty at h ⊢
  rw [hcc_address_eq]
  exact h

theorem applyOp_addrNonempty (s : WalletState) (op : Op)
    (h : addrNonempty s = true) : addrNonempty (applyOp s op) = true := by
  cases op with
  | connect o =>
    simp only [applyOp]
    cases o with
    | none => exact h
    | some oo =>
      obtain ⟨ar, cr⟩ := oo
      cases ar with
      | error e => exact h
      | ok accounts =>
        cases cr with
        | error e =>
          simp only [connect]
          exact hac_addrNonempty (some accounts) s
        | ok cid =>
          simp only [connect]
          exact hcc_addrNonempty cid _ (hac_addrNonempty (some accounts) s)
  | disconnect => rfl
  | switchNetwork o =>
    simp only [applyOp]
    rw [switch_state_eq]
    exact h
  | accountsChanged a => exact hac_addrNonempty a s
  | chainChanged c => exact hcc_addrNonempty c s h

theorem foldl_addrNonempty (ops : List Op) (s : WalletState)
    (h : addrNonempty s = true) : addrNonempty (ops.foldl applyOp s) = true := by
  induction ops generalizing s with
  | nil => exact h
  | cons op rest ih => exact ih _ (applyOp_addrNonempty s op h)

theorem initProbe_addrNonempty (e : Option InitProvider) (s : WalletState)
    (h : addrNonempty s = true) : addrNonempty (initProbe e s) = true := by
  unfold initProbe
  cases e with
  | none => exact h
  | some p =>
    obtain ⟨pc, psel⟩ := p
    have h2 : ∀ t : WalletState, addrNonempty t = true →
        addrNonempty (match pc with
          | some cid => if cid = "" then t else handleChainChanged (some cid) t
          | none => t) = true := by
      intro t ht
      cases pc with
      | none => exact ht
      | some cid =>
        by_cases hc : cid = ""
        · simp [hc]; exact ht
        · simp only [hc, if_false]; exact hcc_addrNonempty _ _ ht
    cases psel with
    | none =>
      simp only []
      exact h2 _ (by unfold addrNonempty at h ⊢; exact h)
    | some a =>
      by_cases ha : a = ""
      · simp only [ha, if_true]
        exact h2 _ (by unfold addrNonempty at h ⊢; exact h)
      · simp only [ha, if_false]
        simp [addrNonempty, normalizeAddress, bne_iff_ne, ha]

theorem hcc_consistent (c : Option String) (s : WalletState) :
    chainConsistent (handleChainChanged c s) = true := by
  cases c with
  | none => rfl
  | some x =>
    by_cases h : x = ""
    · simp [handleChainChanged, chainConsistent, supportedOf, h]
    · simp [handleChainChanged, chainConsistent, supportedOf, h]

theorem hac_consistent (a : Option (List String)) (s : WalletState)
    (h : chainConsistent s = true) : chainConsistent (handleAccountsChanged a s) = true := by
  unfold chainConsistent at h ⊢
  rw [hac_chainId, hac_supported]
  exact h

theorem connect_installed (o : ConnectOracle) (s : WalletState) :
    (connect (some o) s).1.isMetaMaskInstalled = s.isMetaMaskInstalled := by
  obtain ⟨ar, cr⟩ := o
  cases ar with
  | error e => rfl
  | ok accounts =>
    cases cr with
    | error e =>
      simp only [connect]
      exact hac_installed (some accounts) s
    | ok cid =>
      simp only [connect]
      rw [hcc_installed]
      exact hac_installed (some accounts) s

theorem applyOp_consistent (s : WalletState) (op : Op)
    (h : chainConsistent s = true) : chainConsistent (applyOp s op) = true := by
  cases op with
  | connect o =>
    simp only [applyOp]
    cases o with
    | none =>
      unfold chainConsistent at h ⊢
      exact h
    | some oo =>
      obtain ⟨ar, cr⟩ := oo
      cases ar with
      | error e => exact h
      | ok accounts =>
        cases cr with
        | error e =>
          simp only [connect]
          exact hac_consistent (some accounts) s h
        | ok cid =>
          simp only [connect]
          exact hcc_consistent cid _
  | disconnect =>
    unfold chainConsistent at h ⊢
    exact h
  | switchNetwork o =>
    simp only [applyOp]
    rw [switch_state_eq]
    exact h
  | accountsChanged a => exact hac_consistent a s h
  | chainChanged c => exact hcc_consistent c s

theorem foldl_consistent (ops : List Op) (s : WalletState)
    (h : chainConsistent s = true) : chainConsistent (ops.foldl applyOp s) = true := by
  induction ops generalizing s with
  | nil => exact h
  | cons op rest ih => exact ih _ (applyOp_consistent s op h)

theorem initProbe_consistent (e : Option InitProvider) (s : WalletState)
    (h : chainConsistent s = true) : chainConsistent (initProbe e s) = true := by
  unfold initProbe
  cases e with
  | none => unfold chainConsistent at h ⊢; exact h
  | some p =>
    obtain ⟨pc, psel⟩ := p
    have h1 : chainConsistent { s with isMetaMaskInstalled := true } = true := by
      unfold chainConsistent at h ⊢; exact h
    have h2 : chainConsistent (match pc with
        | some cid => if cid = "" then { s with isMetaMaskInstalled := true }
                      else handleChainChanged (some cid) { s with isMetaMaskInstalled := true }
        | none => { s with isMetaMaskInstalled := true }) = true := by
      cases pc with
      | none => exact h1
      | some cid =>
        by_cases hc : cid = ""
        · simp only [hc, if_true]; exact h1
        · simp only [hc, if_false]; exact hcc_consistent _ _
    cases psel with
    | none => exact h2
    | some a =>
      by_cases ha : a = ""
      · simp only [ha, if_true]; exact h2
      · simp only [ha, if_false]
        generalize hm : (match pc with
          | some cid => if cid = "" then { s with isMetaMaskInstalled := true }
                        else handleChainChanged (some cid) { s with isMetaMaskInstalled := true }
          | none => { s with isMetaMaskInstalled := true }) = t at h2
        unfold chainConsistent at h2 ⊢
        exact h2

theorem applyOp_installed (b : Bool) (s : WalletState) (op : Op)
    (h : s.isMetaMaskInstalled = b) (hok : connectPresenceOk b op = true) :
    (applyOp s op).isMetaMaskInstalled = b := by
  cases op with
  | connect o =>
    cases o with
    | none =>
      have hb : b = false := by simpa [connectPresenceOk] using hok
      subst hb
      rfl
    | some oo =>
      simp only [applyOp]
      rw [connect_installed]
      exact h
  | disconnect => exact h
  | switchNetwork o =>
    simp only [applyOp]
    rw [switch_state_eq]
    exact h
  | accountsChanged a =>
    simp only [applyOp]
    rw [hac_installed]
    exact h
  | chainChanged c =>
    simp only [applyOp]
    rw [hcc_installed]
    exact h

theorem foldl_installed (b : Bool) (ops : List Op) (s : WalletState)
    (h : s.isMetaMaskInstalled = b) (hall : ops.all (connectPresenceOk b) = true) :
    (ops.foldl applyOp s).isMetaMaskInstalled = b := by
  induction ops generalizing s with
  | nil => exact h
  | cons op rest ih =>
    rw [List.all_cons, Bool.and_eq_true] at hall
    exact ih _ (applyOp_installed b s op h hall.1) hall.2

theorem initProbe_installed (e : Option InitProvider) (s : WalletState) :
    (initProbe e s).isMetaMaskInstalled = Option.isSome e := by
  cases e with
  | none => rfl
  | some p =>
    obtain ⟨pc, psel⟩ := p
    unfold initProbe
    have h2 : (match pc with
        | some cid => if cid = "" then { s with isMetaMaskInstalled := true }
                      else handleChainChanged (some cid) { s with isMetaMaskInstalled := true }
        | none => { s with isMetaMaskInstalled := true }).isMetaMaskInstalled = true := by
      cases pc with
      | none => rfl
      | some cid =>
        by_cases hc : cid = ""
        · simp [hc]
        · simp only [hc, if_false]
          rw [hcc_installed]
    cases psel with
    | none => exact h2
    | some a =>
      by_cases ha : a = ""
      · simp only [ha, if_true]
        exact h2
      · simp only [ha, if_false]
        exact h2

/-! ## Claim theorems -/

/-- Claim C1 (amended).  State effects of the failure paths:
`switchToSupportedNetwork` never mutates state, so all of its failures leave
every field unchanged; `connect` with the provider missing raises after
setting `isMetaMaskInstalled` to false; `connect` raising on the accounts
request leaves the state unchanged; but `connect` raising on the chain-id
request — after the accounts request has resolved — keeps the address
update already performed by the account-update routine, with no rollback. -/
theorem c1_amended_failure_state_effects :
    (∀ (s : WalletState) (o : Option SwitchOracle), (switchToSupportedNetwork o s).1 = s)
    ∧ (∀ s : WalletState, (connect none s).1 = { s with isMetaMaskInstalled := false })
    ∧ (∀ (s : WalletState) (e : JsError) (cr : Except JsError (Option String)),
        (connect (some { accountsResult := Except.error e, chainIdResult := cr }) s).1 = s)
    ∧ (∀ (s : WalletState) (accs : List String) (e : JsError),
        (connect (some { accountsResult := Except.ok accs,
                         chainIdResult := Except.error e }) s).1
          = handleAccountsChanged (some accs) s) :=
  ⟨fun s o => switch_state_eq o s, fun _ => rfl, fun _ _ _ => rfl, fun _ _ _ => rfl⟩

/-- Claim C1, counterexample.  An execution of `connect` in which the
accounts request resolves to `["0xabc"]` and the subsequent chain-id
request rejects: the call raises the chain-id error, yet the state after
the call differs from the state before it — `address` has moved from
`none` to `some "0xabc"`. -/
theorem c1_counterexample_chain_read_failure :
    (connect (some { accountsResult := Except.ok ["0xabc"],
                     chainIdResult :=
                       Except.error { code := some 4001, data := none, message := "boom" } })
        (run (some { chainId := none, selectedAddress := none }) [])).2.2
      = Except.error { code := some 4001, data := none, message := "boom" }
    ∧ (run (some { chainId := none, selectedAddress := none }) []).address = none
    ∧ (connect (some { accountsResult := Except.ok ["0xabc"],
                       chainIdResult :=
                         Except.error { code := some 4001, data := none, message := "boom" } })
        (run (some { chainId := none, selectedAddress := none }) [])).1.address = some "0xabc"
    ∧ decide ((connect (some { accountsResult := Except.ok ["0xabc"],
                               chainIdResult :=
                                 Except.error { code := some 4001, data := none,
                                                message := "boom" } })
          (run (some { chainId := none, selectedAddress := none }) [])).1
        = run (some { chainId := none, selectedAddress := none }) []) = false :=
  ⟨rfl, rfl, rfl, by decide⟩

/-- Claim C2 (amended).  `isMetaMaskInstalled` is untouched by the two
event handlers, by `disconnect`, by `switchToSupportedNetwork`, and by
`connect` whenever the provider is present; the one later write is the
provider-missing guard of `connect`, which re-marks the flag false.
Consequently, for every interaction sequence in which each `connect`
call's provider presence agrees with the presence at construction, the
flag keeps the value set by the construction-time probe. -/
theorem c2_amended_installed_flag :
    (∀ (s : WalletState) (a : Option (List String)),
        (handleAccountsChanged a s).isMetaMaskInstalled = s.isMetaMaskInstalled)
    ∧ (∀ (s : WalletState) (c : Option String),
        (handleChainChanged c s).isMetaMaskInstalled = s.isMetaMaskInstalled)
    ∧ (∀ s : WalletState, (disconnect s).1.isMetaMaskInstalled = s.isMetaMaskInstalled)
    ∧ (∀ (s : WalletState) (o : Option SwitchOracle),
        (switchToSupportedNetwork o s).1.isMetaMaskInstalled = s.isMetaMaskInstalled)
    ∧ (∀ (s : WalletState) (o : ConnectOracle),
        (connect (some o) s).1.isMetaMaskInstalled = s.isMetaMaskInstalled)
    ∧ (∀ s : WalletState, (connect none s).1.isMetaMaskInstalled = false)
    ∧ (∀ (e : Option InitProvider) (ops : List Op),
        ops.all (connectPresenceOk (Option.isSome e)) = true →
        (run e ops).isMetaMaskInstalled = Option.isSome e) := by
  refine ⟨fun s a => hac_installed a s, fun s c => hcc_installed c s, fun _ => rfl,
    fun s o => by rw [switch_state_eq], fun s o => connect_installed o s, fun _ => rfl,
    fun e ops hall => ?_⟩
  exact foldl_installed (Option.isSome e) ops _ (initProbe_installed e initialState) hall

/-- Claim C2, counterexample.  After construction with the provider
present, the flag is true; a single later `connect` call that finds the
provider absent writes the flag back to false — a later operation does
write `isMetaMaskInstalled`, and the value set at construction is not
kept. -/
theorem c2_counterexample_connect_rewrites_flag :
    (run (some { chainId := none, selectedAddress := none }) []).isMetaMaskInstalled = true
    ∧ (run (some { chainId := none, selectedAddress := none })
        [Op.connect none]).isMetaMaskInstalled = false :=
  ⟨rfl, rfl⟩

/-- Claim C3 (amended).  At every reachable state, either
`isSupportedNetwork` equals the pure membership function of the current
`chainId`, or no chain update has happened yet — in which case `chainId`
is null and the flag still holds its initial value `true`.  (The claim's
"false when chainId is null" only holds once the first chain update has
run.) -/
theorem c3_amended_supported_invariant :
    ∀ (e : Option InitProvider) (ops : List Op),
      (run e ops).isSupportedNetwork = supportedOf ((run e ops).chainId)
      ∨ ((run e ops).chainId = none ∧ (run e ops).isSupportedNetwork = true) := by
  intro e ops
  have h : chainConsistent (run e ops) = true :=
    foldl_consistent ops _ (initProbe_consistent e initialState rfl)
  unfold chainConsistent at h
  simp only [Bool.or_eq_true, Bool.and_eq_true, beq_iff_eq] at h
  exact h

/-- Claim C3, counterexample.  The reachable state right after
construction with no provider (before any chain read) has a null `chainId`
and `isSupportedNetwork = true`, while the pure function of a null chain
is false — so the claimed invariant fails at the initial state it
explicitly includes. -/
theorem c3_counterexample_initial_state :
    (run none []).chainId = none
    ∧ (run none []).isSupportedNetwork = true
    ∧ supportedOf ((run none []).chainId) = false
    ∧ decide ((run none []).isSupportedNetwork = supportedOf ((run none []).chainId)) = false :=
  ⟨rfl, rfl, rfl, by decide⟩

/-- Claim C4.  For every chain identifier other than the empty string
(the empty-string input is claim C10's subject), the chain-update routine
agrees with the spec's description: `chainId` stored as given or null,
`isSupportedNetwork` by membership in `SUPPORTED_CHAIN_IDS` (false for
null), `networkName` the `CHAIN_NAME_MAP` entry when mapped, the
synthesized "Chain <id>" string when present but unmapped, and null when
the identifier is null. -/
theorem c4_chain_update_matches_spec :
    ∀ (c : Option String) (s : WalletState), c ≠ some "" →
      handleChainChanged c s = specChainUpdate c s := by
  intro c s h
  cases c with
  | none => rfl
  | some x =>
    have hx : x ≠ "" := by intro hx; exact h (by rw [hx])
    unfold handleChainChanged specChainUpdate
    simp only [hx, if_false]
    cases hm : CHAIN_NAME_MAP x with
    | none => simp [hm]
    | some n =>
      have := chainNameMap_ne_empty x n hm
      simp [hm, this]

/-- Claim C4, witness.  The routine applied to the unmapped identifier
"0x2a" (whose spec-side result has `networkName = "Chain 0x2a"`). -/
theorem c4_witness_unmapped_chain :
    handleChainChanged (some "0x2a") initialState = specChainUpdate (some "0x2a") initialState :=
  c4_chain_update_matches_spec (some "0x2a") initialState (by decide)

/-- Claim C5 (amended).  The account-update routine sets `address` to the
normalization of the first entry when the list is non-empty and that entry
is itself non-empty, and to null otherwise — for a null or empty list, and
also when the first entry is the empty string (the source's truthiness
check), which is the one point where the original claim's "first entry
whenever the list is non-empty" fails. -/
theorem c5_amended_account_update :
    (∀ s : WalletState, (handleAccountsChanged none s).address = none)
    ∧ (∀ s : WalletState, (handleAccountsChanged (some []) s).address = none)
    ∧ (∀ (a : String) (rest : List String) (s : WalletState), a ≠ "" →
        (handleAccountsChanged (some (a :: rest)) s).address = some (normalizeAddress a))
    ∧ (∀ (rest : List String) (s : WalletState),
        (handleAccountsChanged (some ("" :: rest)) s).address = none) := by
  refine ⟨fun _ => rfl, fun _ => rfl, fun a rest s h => ?_, fun _ _ => rfl⟩
  simp [handleAccountsChanged, h]

/-- Claim C5, counterexample.  The non-empty list `[""]` does not yield
the (normalized) first entry: the routine stores null, not `some ""`. -/
theorem c5_counterexample_empty_first_entry :
    (handleAccountsChanged (some [""]) initialState).address = none
    ∧ decide ((handleAccountsChanged (some [""]) initialState).address
        = some (normalizeAddress "")) = false :=
  ⟨rfl, by decide⟩

/-- Claim C6.  Whenever the provider is present, the first request
`switchToSupportedNetwork` issues is a switch-chain request for the target
given by the spec's policy (`specTarget`): the first `SUPPORTED_CHAIN_IDS`
entry differing from the current `chainId`, else the first entry; the
source's selection expression (`chooseTarget`) coincides with that policy
for every current chain, and for `chainId = "0x1"` the target is
`"0x5"`. -/
theorem c6_target_selection :
    (∀ (s : WalletState) (o : SwitchOracle),
      ((switchToSupportedNetwork (some o) s).2.1).head?
        = some (Request.switchChain (specTarget s.chainId)))
    ∧ specTarget (some "0x1") = "0x5"
    ∧ (∀ current : Option String, chooseTarget current = specTarget current) := by
  refine ⟨fun s o => ?_, by decide, chooseTarget_eq_spec⟩
  obtain ⟨sr, ar⟩ := o
  simp only [switchToSupportedNetwork]
  cases sr with
  | ok u => simp [chooseTarget_eq_spec]
  | error err =>
    by_cases h : is4902 err
    · simp only [h, if_true]
      cases hcp : CHAIN_PARAMS (chooseTarget s.chainId) with
      | none => simp [hcp, chooseTarget_eq_spec]
      | some p => cases ar <;> simp [hcp, chooseTarget_eq_spec]
    · simp [h, chooseTarget_eq_spec]

/-- Claim C7 (amended).  Full characterization of the switch-error
handling: the effective code is the top-level `code` when that is a
nonzero number, otherwise the code nested under `data`; when the effective
code is 4902 and `CHAIN_PARAMS` has an entry for the target, an add-chain
request with that entry's full bundle is issued and the outcome is the
add request's result; with a 4902 effective code but no entry, the
original error is re-raised; any other error propagates unchanged.  A
nonzero top-level code other than 4902 takes precedence and suppresses a
4902 nested under `data`. -/
theorem c7_amended_switch_error_handling :
    (∀ (s : WalletState) (err : JsError) (ar : Except JsError Unit),
      switchToSupportedNetwork
          (some { switchResult := Except.error err, addResult := ar }) s
        = (s, if is4902 err then
                match CHAIN_PARAMS (chooseTarget s.chainId) with
                | some p => ([Request.switchChain (chooseTarget s.chainId), Request.addChain p], ar)
                | none => ([Request.switchChain (chooseTarget s.chainId)], Except.error err)
              else ([Request.switchChain (chooseTarget s.chainId)], Except.error err)))
    ∧ is4902 { code := some 4902, data := none, message := "m" } = true
    ∧ is4902 { code := none, data := some { code := some 4902 }, message := "m" } = true
    ∧ is4902 { code := some 0, data := some { code := some 4902 }, message := "m" } = true
    ∧ is4902 { code := some 7, data := some { code := some 4902 }, message := "m" } = false := by
  refine ⟨fun s err ar => ?_, by decide, by decide, by decide, by decide⟩
  unfold switchToSupportedNetwork
  by_cases h : is4902 err
  · simp only [h, if_true]
    cases hcp : CHAIN_PARAMS (chooseTarget s.chainId) with
    | none => simp [hcp]
    | some p => cases ar <;> simp [hcp]
  · simp [h]

/-- Claim C7, counterexample.  An error carrying 4902 nested under `data`
but a different nonzero code (7) at top level, raised against a target
("0x1") for which `CHAIN_PARAMS` does have an entry: the claim demands an
add-chain request, but the code issues none — only the switch request is
made — and the original error propagates. -/
theorem c7_counterexample_top_code_precedence :
    (switchToSupportedNetwork
        (some { switchResult :=
                  Except.error { code := some 7, data := some { code := some 4902 },
                                 message := "switch failed" },
                addResult := Except.ok () })
        initialState).2.1
      = [Request.switchChain "0x1"]
    ∧ (switchToSupportedNetwork
        (some { switchResult :=
                  Except.error { code := some 7, data := some { code := some 4902 },
                                 message := "switch failed" },
                addResult := Except.ok () })
        initialState).2.2
      = Except.error { code := some 7, data := some { code := some 4902 },
                       message := "switch failed" }
    ∧ (CHAIN_PARAMS "0x1").isSome = true
    ∧ ({ code := some 7, data := some { code := some 4902 },
         message := "switch failed" } : JsError).data = some { code := some 4902 } :=
  ⟨rfl, rfl, rfl, rfl⟩

/-- Claim C8.  `disconnect` is a local-only mutation: for every state it
clears `address` to null, issues no provider request, and leaves
`chainId`, `networkName`, `isSupportedNetwork` and `isMetaMaskInstalled`
unchanged. -/
theorem c8_disconnect_pure_local :
    ∀ s : WalletState,
      (disconnect s).1.address = none
      ∧ (disconnect s).2 = []
      ∧ (disconnect s).1.chainId = s.chainId
      ∧ (disconnect s).1.networkName = s.networkName
      ∧ (disconnect s).1.isSupportedNetwork = s.isSupportedNetwork
      ∧ (disconnect s).1.isMetaMaskInstalled = s.isMetaMaskInstalled :=
  fun _ => ⟨rfl, rfl, rfl, rfl, rfl, rfl⟩

/-- Claim C9.  For every construction environment and every sequence of
interactions (connect calls, disconnects, switch calls, account-change and
chain-change events — including lists whose first entry is the empty
string), the `address` field is never the empty string: it is always null
or non-empty. -/
theorem c9_address_never_empty_string :
    ∀ (e : Option InitProvider) (ops : List Op), addrNonempty (run e ops) = true :=
  fun e ops => foldl_addrNonempty ops _ (initProbe_addrNonempty e initialState rfl)

/-- Claim C10.  Feeding the empty string to the chain-update routine is
identical to feeding null: the resulting state is the same, with `chainId`
null, `isSupportedNetwork` false and `networkName` null — the empty string
is never stored nor used to synthesize a name. -/
theorem c10_empty_chain_id_like_null :
    ∀ s : WalletState,
      handleChainChanged (some "") s = handleChainChanged none s
      ∧ (handleChainChanged (some "") s).chainId = none
      ∧ (handleChainChanged (some "") s).isSupportedNetwork = false
      ∧ (handleChainChanged (some "") s).networkName = none :=
  fun _ => ⟨rfl, rfl, rfl, rfl⟩

end Web3Service
